import Mathlib

/-!
Shallow embedding of the jelease webhook handler (src/main.go) and the
configuration template renderer declarations (src/pkg/config/template.go).

The handler `handlePostWebhook` is modelled as a pure function of the
request method, the decoded request body, the process configuration and an
oracle fixing the results of the three Jira client calls it may perform
(search, create, update).  The observable behaviour is returned as a
`HandlerResult`: the HTTP status written, the ordered list of Jira calls
issued, the log events emitted, and whether execution panicked.
-/

namespace Jelease

/-- `Config` from src/main.go lines 27-35: configuration values loaded from
the environment.  Note there is no dry-run field and no description
template field. -/
structure Config where
  port : String
  jiraUrl : String
  jiraUser : String
  jiraToken : String
  project : String
  defaultStatus : String
  addLabels : List String
  deriving Repr, DecidableEq

/-- `Release` from src/main.go lines 39-43: the object unmarshaled from the
newreleases.io webhook body. -/
structure Release where
  provider : String
  project : String
  version : String
  deriving Repr, DecidableEq

/-- Issue fields, after `jira.IssueFields` as used by src/main.go:
description, project key, type name, status name, labels, summary and the
creation timestamp (`jira.Time`, modelled as an integer instant; Go's
`time.Time.Before` is the strict order on instants). -/
structure IssueFields where
  description : String
  projectKey : String
  typeName : String
  statusName : String
  labels : List String
  summary : String
  created : Int
  deriving Repr, DecidableEq

/-- An issue, after `jira.Issue` as used by src/main.go: id, key and
fields. -/
structure Issue where
  id : String
  key : String
  fields : IssueFields
  deriving Repr, DecidableEq

/-- `Release.IssueSummary` from src/main.go lines 46-48:
`fmt.Sprintf("Update %v to version %v", release.Project, release.Version)`;
`%v` on a string is the string itself. -/
def Release.IssueSummary (release : Release) : String :=
  "Update " ++ release.project ++ " to version " ++ release.version

/-- `Release.JiraIssue` from src/main.go lines 50-68: the issue content
built for a create call.  The description is the hardcoded string literal
from line 54; labels are `append(config.AddLabels, release.Project)`; the
id, key and created timestamp play no role in a create request and are
zero-valued. -/
def Release.JiraIssue (config : Config) (release : Release) : Issue :=
  { id := ""
    key := ""
    fields :=
      { description := "Update issue generated by https://github.2rioffice.com/platform/jelease using newreleases.io."
        projectKey := config.project
        typeName := "Task"
        statusName := config.defaultStatus
        labels := config.addLabels ++ [release.project]
        summary := release.IssueSummary
        created := 0 } }

/-- `summaryUpdate` from src/main.go lines 152-154: `{Set string}`. -/
structure summaryUpdate where
  set : String
  deriving Repr, DecidableEq

/-- `issueUpdate` from src/main.go lines 155-157: a single `Summary` field
holding a list of set-operations. -/
structure issueUpdate where
  summary : List summaryUpdate
  deriving Repr, DecidableEq

/-- The `updates` payload from src/main.go lines 159-165:
`map[string]any{"update": issueUpdate{...}}` — a map with the single key
`"update"`, modelled as a structure with that single field. -/
structure UpdatesMap where
  update : issueUpdate
  deriving Repr, DecidableEq

/-- A call issued to the Jira client, in program order.  The search call
carries the two parameters interpolated into the JQL string at
src/main.go line 95 (`status = %q and labels = %q`). -/
inductive Call where
  | search (status : String) (label : String)
  | create (issue : Issue)
  | update (issueID : String) (payload : UpdatesMap)
  deriving Repr, DecidableEq

/-- Whether a call is the create call. -/
def Call.isCreate : Call → Bool
  | .create _ => true
  | _ => false

/-- Whether a call is the update call. -/
def Call.isUpdate : Call → Bool
  | .update _ _ => true
  | _ => false

/-- Whether a call mutates tracker state (create or update; search is
read-only). -/
def Call.isMutation : Call → Bool
  | .search _ _ => false
  | _ => true

/-- Log events emitted through `logger.Printf` along the handler paths,
keeping the data the messages interpolate. -/
inductive LogEvent where
  | rejectedMethod
  | decodeError
  | searchError
  | createError
  | createdIssue (id : String)
  | duplicates (canonicalKey : String) (keys : List String)
  | updateError
  | updatedSummary (oldSummary : String) (newSummary : String)
  deriving Repr, DecidableEq

/-- Oracle fixing the results of the Jira client calls the handler may
perform: `Issue.Search` (error, or the issue list), `Issue.Create` (error,
or the created issue echoed back) and `Issue.UpdateIssue` (error or
success).  In Go each also returns a response object used only for error
logging, which carries no decision-relevant data and is elided. -/
structure TrackerResults where
  searchResult : Except Unit (List Issue)
  createResult : Except Unit Issue
  updateResult : Except Unit Unit

/-- Request method: POST or anything else (src/main.go line 78 only
distinguishes `http.MethodPost`). -/
inductive Method where
  | post
  | other
  deriving Repr, DecidableEq

/-- What the handler observably did. `status` is the HTTP status written
(200 when no explicit status is set before returning), `calls` the Jira
client calls in program order, `logs` the log events in order, and
`panicked` records that execution aborted with a runtime panic (nil
pointer dereference). -/
structure HandlerResult where
  status : Nat
  calls : List Call
  logs : List LogEvent
  panicked : Bool
  deriving Repr, DecidableEq

/-- The duplicate-selection loop of src/main.go lines 128-143: scan the
issues after the first, keeping the oldest seen so far (`time.Before`,
i.e. strictly earlier `Created`, dethrones; ties keep the earlier-seen
issue) and appending the key of each issue ruled out to
`duplicateIssueKeys` in the order the loop rules them out. -/
def selectOldest : List Issue → Issue → List String → Issue × List String
  | [], oldest, dups => (oldest, dups)
  | existingIssue :: rest, oldest, dups =>
    if existingIssue.fields.created < oldest.fields.created then
      selectOldest rest existingIssue (dups ++ [oldest.key])
    else
      selectOldest rest oldest (dups ++ [existingIssue.key])

/-- `handlePostWebhook` from src/main.go lines 77-179, as a function of the
method, the decode result of the body (`none` = JSON decode error), the
configuration and the tracker oracle.

Faithful control flow: non-POST → 405 and return; decode failure → 400 and
return; search error → log, 500 and return; empty result → create, where a
create error logs, writes 500 and — the `if` block lacking a `return` —
falls through to `logger.Printf("Created issue %v", newIssue.ID)`, which
dereferences the nil `newIssue` pointer and panics; otherwise the oldest
existing issue is selected, duplicates are logged if any, and an update
setting only the summary is issued. -/
def handlePostWebhook (config : Config) (method : Method)
    (body : Option Release) (tracker : TrackerResults) : HandlerResult :=
  if method ≠ Method.post then
    { status := 405, calls := [], logs := [.rejectedMethod], panicked := false }
  else
    match body with
    | none => { status := 400, calls := [], logs := [.decodeError], panicked := false }
    | some release =>
      let searchCall := Call.search config.defaultStatus release.project
      match tracker.searchResult with
      | .error _ =>
        { status := 500, calls := [searchCall], logs := [.searchError], panicked := false }
      | .ok existingIssues =>
        match existingIssues with
        | [] =>
          let i := release.JiraIssue config
          match tracker.createResult with
          | .error _ =>
            -- missing `return` after http.Error: falls through to
            -- `newIssue.ID` on the nil pointer and panics
            { status := 500, calls := [searchCall, .create i],
              logs := [.createError], panicked := true }
          | .ok newIssue =>
            { status := 200, calls := [searchCall, .create i],
              logs := [.createdIssue newIssue.id], panicked := false }
        | first :: rest =>
          let sel := selectOldest rest first []
          let oldestExistingIssue := sel.1
          let duplicateIssueKeys := sel.2
          let dupLog : List LogEvent :=
            if duplicateIssueKeys.length > 0 then
              [.duplicates oldestExistingIssue.key duplicateIssueKeys]
            else []
          let updates : UpdatesMap :=
            { update := { summary := [{ set := release.IssueSummary }] } }
          match tracker.updateResult with
          | .error _ =>
            { status := 500,
              calls := [searchCall, .update oldestExistingIssue.id updates],
              logs := dupLog ++ [.updateError], panicked := false }
          | .ok _ =>
            { status := 200,
              calls := [searchCall, .update oldestExistingIssue.id updates],
              logs := dupLog ++ [.updatedSummary oldestExistingIssue.fields.summary release.IssueSummary],
              panicked := false }

/-- Sample release event, as in the spec's scenario section. -/
def sampleRelease : Release :=
  { provider := "github", project := "widget", version := "2.0.0" }

/-- Release event with empty project and version fields. -/
def emptyRelease : Release :=
  { provider := "", project := "", version := "" }

/-- Sample configuration. -/
def sampleConfig : Config :=
  { port := "8080", jiraUrl := "https://jira.example.invalid", jiraUser := "user"
    jiraToken := "token", project := "PLAT", defaultStatus := "To Do"
    addLabels := ["dependencies"] }

/-- Sample issue returned by a create call. -/
def sampleCreatedIssue : Issue :=
  { id := "10001", key := "PLAT-1"
    fields :=
      { description := "", projectKey := "PLAT", typeName := "Task"
        statusName := "To Do", labels := ["widget"]
        summary := "Update widget to version 2.0.0", created := 100 } }

/-- Existing issue created at instant 50. -/
def sampleIssueA : Issue :=
  { id := "1", key := "PLAT-1"
    fields :=
      { description := "", projectKey := "PLAT", typeName := "Task"
        statusName := "To Do", labels := ["widget"]
        summary := "Update widget to version 1.9.0", created := 50 } }

/-- Existing issue created at instant 30 (the oldest of the samples). -/
def sampleIssueB : Issue :=
  { id := "2", key := "PLAT-2"
    fields :=
      { description := "", projectKey := "PLAT", typeName := "Task"
        statusName := "To Do", labels := ["widget"]
        summary := "Update widget to version 1.8.0", created := 30 } }

/-- Existing issue created at instant 40. -/
def sampleIssueC : Issue :=
  { id := "3", key := "PLAT-3"
    fields :=
      { description := "", projectKey := "PLAT", typeName := "Task"
        statusName := "To Do", labels := ["widget"]
        summary := "Update widget to version 1.7.0", created := 40 } }

/-- Tracker oracle: search succeeds with no issues, create and update
succeed. -/
def trEmptyOk : TrackerResults :=
  { searchResult := .ok [], createResult := .ok sampleCreatedIssue
    updateResult := .ok () }

/-- Tracker oracle: search succeeds with one issue. -/
def trOne : TrackerResults :=
  { searchResult := .ok [sampleIssueA], createResult := .ok sampleCreatedIssue
    updateResult := .ok () }

/-- Tracker oracle: search succeeds with three issues for the same project,
the second being the oldest. -/
def trThree : TrackerResults :=
  { searchResult := .ok [sampleIssueA, sampleIssueB, sampleIssueC]
    createResult := .ok sampleCreatedIssue, updateResult := .ok () }

/-- Tracker oracle: the search call itself fails. -/
def trQueryErr : TrackerResults :=
  { searchResult := .error (), createResult := .ok sampleCreatedIssue
    updateResult := .ok () }

/-- Tracker oracle: search succeeds with no issues and the create call
fails. -/
def trCreateErr : TrackerResults :=
  { searchResult := .ok [], createResult := .error (), updateResult := .ok () }

/-! Lemmas about the duplicate-selection loop. -/

/-- The selected oldest issue is one of the scanned issues. -/
theorem selectOldest_fst_mem (rest : List Issue) :
    ∀ (cur : Issue) (dups : List String),
      (selectOldest rest cur dups).1 ∈ cur :: rest := by
  induction rest with
  | nil => intro cur dups; simp [selectOldest]
  | cons x xs ih =>
    intro cur dups
    by_cases h : x.fields.created < cur.fields.created
    · simp only [selectOldest, if_pos h]
      exact List.mem_cons_of_mem _ (ih x (dups ++ [cur.key]))
    · simp only [selectOldest, if_neg h]
      rcases List.mem_cons.mp (ih cur (dups ++ [x.key])) with h1 | h1
      · exact List.mem_cons.mpr (Or.inl h1)
      · exact List.mem_cons_of_mem _ (List.mem_cons_of_mem _ h1)

/-- The selected issue has the minimum creation instant among all scanned
issues. -/
theorem selectOldest_fst_min (rest : List Issue) :
    ∀ (cur : Issue) (dups : List String), ∀ y ∈ cur :: rest,
      (selectOldest rest cur dups).1.fields.created ≤ y.fields.created := by
  induction rest with
  | nil =>
    intro cur dups y hy
    rw [List.mem_singleton] at hy
    subst hy
    simp [selectOldest]
  | cons x xs ih =>
    intro cur dups y hy
    by_cases h : x.fields.created < cur.fields.created
    · simp only [selectOldest, if_pos h]
      rcases List.mem_cons.mp hy with heq | hy
      · rw [heq]
        exact le_trans (ih x (dups ++ [cur.key]) x (List.mem_cons_self _ _)) (le_of_lt h)
      · exact ih x (dups ++ [cur.key]) y hy
    · simp only [selectOldest, if_neg h]
      rcases List.mem_cons.mp hy with heq | hy
      · rw [heq]
        exact ih cur (dups ++ [x.key]) cur (List.mem_cons_self _ _)
      · rcases List.mem_cons.mp hy with heq | hy
        · rw [heq]
          exact le_trans (ih cur (dups ++ [x.key]) cur (List.mem_cons_self _ _)) (not_lt.mp h)
        · exact ih cur (dups ++ [x.key]) y (List.mem_cons_of_mem _ hy)

/-- First-seen tie-break: every scanned issue strictly before the selected
one has a strictly later creation instant, so the selected issue is the
first to attain the minimum. -/
theorem selectOldest_fst_split (rest : List Issue) :
    ∀ (cur : Issue) (dups : List String),
      ∃ l₁ l₂, cur :: rest = l₁ ++ (selectOldest rest cur dups).1 :: l₂ ∧
        ∀ y ∈ l₁, (selectOldest rest cur dups).1.fields.created < y.fields.created := by
  induction rest with
  | nil =>
    intro cur dups
    exact ⟨[], [], by simp [selectOldest], by simp⟩
  | cons x xs ih =>
    intro cur dups
    by_cases h : x.fields.created < cur.fields.created
    · simp only [selectOldest, if_pos h]
      obtain ⟨l₁, l₂, heq, hlt⟩ := ih x (dups ++ [cur.key])
      refine ⟨cur :: l₁, l₂, by rw [List.cons_append, ← heq], ?_⟩
      intro y hy
      rcases List.mem_cons.mp hy with heq2 | hy
      · rw [heq2]
        exact lt_of_le_of_lt
          (selectOldest_fst_min xs x (dups ++ [cur.key]) x (List.mem_cons_self _ _)) h
      · exact hlt y hy
    · simp only [selectOldest, if_neg h]
      obtain ⟨l₁, l₂, heq, hlt⟩ := ih cur (dups ++ [x.key])
      cases l₁ with
      | nil =>
        rw [List.nil_append] at heq
        injection heq with h1 h2
        refine ⟨[], x :: l₂, ?_, by simp⟩
        rw [List.nil_append, ← h1, h2]
      | cons a l₁' =>
        rw [List.cons_append] at heq
        injection heq with h1 h2
        have hcc : cur.fields.created = a.fields.created :=
          congrArg (fun z => z.fields.created) h1
        have hsc : (selectOldest xs cur (dups ++ [x.key])).1.fields.created
            < cur.fields.created := by
          rw [hcc]
          exact hlt a (List.mem_cons_self _ _)
        refine ⟨cur :: x :: l₁', l₂, ?_, ?_⟩
        · simp only [List.cons_append]
          rw [← h2]
        · intro y hy
          rcases List.mem_cons.mp hy with heq2 | hy
          · rw [heq2]
            exact hsc
          · rcases List.mem_cons.mp hy with heq2 | hy
            · rw [heq2]
              exact lt_of_lt_of_le hsc (not_lt.mp h)
            · exact hlt y (List.mem_cons_of_mem _ hy)

/-- The selected issue's key together with the collected duplicate keys is
a permutation of all scanned keys plus the initial accumulator: every
scanned issue's key is accounted for exactly once. -/
theorem selectOldest_keys_perm (rest : List Issue) :
    ∀ (cur : Issue) (dups : List String),
      ((selectOldest rest cur dups).1.key :: (selectOldest rest cur dups).2).Perm
        ((cur :: rest).map Issue.key ++ dups) := by
  induction rest with
  | nil => intro cur dups; simp [selectOldest]
  | cons x xs ih =>
    intro cur dups
    by_cases h : x.fields.created < cur.fields.created
    · simp only [selectOldest, if_pos h]
      refine (ih x (dups ++ [cur.key])).trans ?_
      have hshape : (x :: xs).map Issue.key ++ (dups ++ [cur.key])
          = ((x :: xs).map Issue.key ++ dups) ++ [cur.key] := by
        rw [List.append_assoc]
      rw [hshape]
      refine (List.perm_append_singleton _ _).trans ?_
      simp
    · simp only [selectOldest, if_neg h]
      refine (ih cur (dups ++ [x.key])).trans ?_
      have hshape : (cur :: xs).map Issue.key ++ (dups ++ [x.key])
          = ((cur :: xs).map Issue.key ++ dups) ++ [x.key] := by
        rw [List.append_assoc]
      rw [hshape]
      refine (List.perm_append_singleton _ _).trans ?_
      simp only [List.map_cons, List.cons_append]
      exact List.Perm.swap _ _ _

/-- The loop appends exactly one key per scanned issue after the first. -/
theorem selectOldest_snd_length (rest : List Issue) :
    ∀ (cur : Issue) (dups : List String),
      (selectOldest rest cur dups).2.length = dups.length + rest.length := by
  induction rest with
  | nil => intro cur dups; simp [selectOldest]
  | cons x xs ih =>
    intro cur dups
    by_cases h : x.fields.created < cur.fields.created
    · simp only [selectOldest, if_pos h]
      rw [ih]
      simp
      omega
    · simp only [selectOldest, if_neg h]
      rw [ih]
      simp
      omega

/-! Claim theorems. -/

/-- C1: for every webhook request whose tracker query returns N ≥ 1 issues,
the handler issues exactly one update call and no create call; the update
targets the issue with the minimum createdAt among the returned set, with
ties broken by first-seen order in the result list (the target is the
first issue in the list attaining the minimal creation instant). -/
theorem update_targets_oldest_issue (config : Config) (release : Release)
    (tracker : TrackerResults) (issues : List Issue)
    (hq : tracker.searchResult = .ok issues) (hne : issues ≠ []) :
    ∃ canonical payload,
      (handlePostWebhook config .post (some release) tracker).calls.filter Call.isUpdate
        = [Call.update canonical.id payload] ∧
      (handlePostWebhook config .post (some release) tracker).calls.filter Call.isCreate
        = [] ∧
      canonical ∈ issues ∧
      (∀ y ∈ issues, canonical.fields.created ≤ y.fields.created) ∧
      ∃ l₁ l₂, issues = l₁ ++ canonical :: l₂ ∧
        ∀ y ∈ l₁, canonical.fields.created < y.fields.created := by
  cases issues with
  | nil => exact absurd rfl hne
  | cons first rest =>
    refine ⟨(selectOldest rest first []).1, ⟨⟨[⟨release.IssueSummary⟩]⟩⟩,
      ?_, ?_, selectOldest_fst_mem rest first [],
      selectOldest_fst_min rest first [], selectOldest_fst_split rest first []⟩
    · unfold handlePostWebhook
      rw [hq]
      cases htu : tracker.updateResult <;>
        simp [htu, List.filter, Call.isUpdate]
    · unfold handlePostWebhook
      rw [hq]
      cases htu : tracker.updateResult <;>
        simp [htu, List.filter, Call.isCreate]

/-- C1 witness: concrete three-issue query result; the update targets the
issue with creation instant 30 (the second in the list). -/
theorem update_targets_oldest_issue_witness :
    (trThree.searchResult = .ok [sampleIssueA, sampleIssueB, sampleIssueC] ∧
      [sampleIssueA, sampleIssueB, sampleIssueC] ≠ []) ∧
    (∃ canonical payload,
      (handlePostWebhook sampleConfig .post (some sampleRelease) trThree).calls.filter
          Call.isUpdate = [Call.update canonical.id payload] ∧
      (handlePostWebhook sampleConfig .post (some sampleRelease) trThree).calls.filter
          Call.isCreate = [] ∧
      canonical ∈ [sampleIssueA, sampleIssueB, sampleIssueC] ∧
      (∀ y ∈ [sampleIssueA, sampleIssueB, sampleIssueC],
        canonical.fields.created ≤ y.fields.created) ∧
      ∃ l₁ l₂, [sampleIssueA, sampleIssueB, sampleIssueC] = l₁ ++ canonical :: l₂ ∧
        ∀ y ∈ l₁, canonical.fields.created < y.fields.created) :=
  ⟨⟨rfl, by decide⟩,
    update_targets_oldest_issue sampleConfig sampleRelease trThree
      [sampleIssueA, sampleIssueB, sampleIssueC] rfl (by decide)⟩

/-- C2: for every webhook request whose tracker query succeeds and returns
an empty result set, the handler issues exactly one create call (with the
rendered issue content) and no update call; the empty result set is not
treated as an error — when the create call succeeds, the response status
is 200. -/
theorem empty_result_creates_once (config : Config) (release : Release)
    (tracker : TrackerResults) (hq : tracker.searchResult = .ok []) :
    (handlePostWebhook config .post (some release) tracker).calls.filter Call.isCreate
      = [Call.create (release.JiraIssue config)] ∧
    (handlePostWebhook config .post (some release) tracker).calls.filter Call.isUpdate
      = [] ∧
    (∀ newIssue, tracker.createResult = .ok newIssue →
      (handlePostWebhook config .post (some release) tracker).status = 200) := by
  unfold handlePostWebhook
  rw [hq]
  cases htc : tracker.createResult <;>
    simp [htc, List.filter, Call.isCreate, Call.isUpdate]

/-- C2 witness: concrete empty query result with a successful create. -/
theorem empty_result_creates_once_witness :
    (trEmptyOk.searchResult = .ok []) ∧
    ((handlePostWebhook sampleConfig .post (some sampleRelease) trEmptyOk).calls.filter
        Call.isCreate = [Call.create (sampleRelease.JiraIssue sampleConfig)] ∧
      (handlePostWebhook sampleConfig .post (some sampleRelease) trEmptyOk).calls.filter
        Call.isUpdate = [] ∧
      (∀ newIssue, trEmptyOk.createResult = .ok newIssue →
        (handlePostWebhook sampleConfig .post (some sampleRelease) trEmptyOk).status = 200)) :=
  ⟨rfl, empty_result_creates_once sampleConfig sampleRelease trEmptyOk rfl⟩

/-- C3: when the tracker query returns two or more issues, a single
canonical issue (the first with minimal createdAt) is the only possible
target of any mutation call; a duplicates log event reports the remaining
keys, the canonical key together with the reported duplicate keys is a
permutation of all returned keys, every non-canonical key is reported, and
no create call is made. -/
theorem duplicates_reported_untouched (config : Config) (release : Release)
    (tracker : TrackerResults) (issues : List Issue)
    (hq : tracker.searchResult = .ok issues) (h2 : 2 ≤ issues.length) :
    ∃ canonical dupKeys payload,
      canonical ∈ issues ∧
      (∀ y ∈ issues, canonical.fields.created ≤ y.fields.created) ∧
      (∃ l₁ l₂, issues = l₁ ++ canonical :: l₂ ∧
        ∀ y ∈ l₁, canonical.fields.created < y.fields.created) ∧
      LogEvent.duplicates canonical.key dupKeys
        ∈ (handlePostWebhook config .post (some release) tracker).logs ∧
      (canonical.key :: dupKeys).Perm (issues.map Issue.key) ∧
      (∀ y ∈ issues, y.key ≠ canonical.key → y.key ∈ dupKeys) ∧
      (∀ c ∈ (handlePostWebhook config .post (some release) tracker).calls,
        c.isMutation = true → c = Call.update canonical.id payload) := by
  cases issues with
  | nil => simp at h2
  | cons first rest =>
    have hperm := selectOldest_keys_perm rest first []
    rw [List.append_nil] at hperm
    have hlen := selectOldest_snd_length rest first []
    have hrest : rest ≠ [] := by
      intro hr
      rw [hr] at h2
      simp at h2
    have hpos : 0 < (selectOldest rest first []).2.length := by
      rw [hlen]
      simp only [List.length_nil, Nat.zero_add]
      exact List.length_pos.mpr hrest
    refine ⟨(selectOldest rest first []).1, (selectOldest rest first []).2,
      ⟨⟨[⟨release.IssueSummary⟩]⟩⟩,
      selectOldest_fst_mem rest first [], selectOldest_fst_min rest first [],
      selectOldest_fst_split rest first [], ?_, hperm, ?_, ?_⟩
    · unfold handlePostWebhook
      rw [hq]
      cases htu : tracker.updateResult <;> simp [htu, hpos]
    · intro y hy hk
      have hyk : y.key ∈ (first :: rest).map Issue.key := List.mem_map_of_mem _ hy
      rcases List.mem_cons.mp (hperm.mem_iff.mpr hyk) with heq | hmem
      · exact absurd heq hk
      · exact hmem
    · intro c hc hm
      unfold handlePostWebhook at hc
      rw [hq] at hc
      cases htu : tracker.updateResult <;> rw [htu] at hc <;>
        simp at hc <;> rcases hc with heq | heq <;> rw [heq] at hm ⊢ <;>
        simp [Call.isMutation] at hm

/-- C3 witness: three concrete issues; the canonical is the one created at
instant 30 and the other two keys are reported as duplicates. -/
theorem duplicates_reported_untouched_witness :
    (trThree.searchResult = .ok [sampleIssueA, sampleIssueB, sampleIssueC] ∧
      2 ≤ ([sampleIssueA, sampleIssueB, sampleIssueC] : List Issue).length) ∧
    (∃ canonical dupKeys payload,
      canonical ∈ [sampleIssueA, sampleIssueB, sampleIssueC] ∧
      (∀ y ∈ [sampleIssueA, sampleIssueB, sampleIssueC],
        canonical.fields.created ≤ y.fields.created) ∧
      (∃ l₁ l₂, [sampleIssueA, sampleIssueB, sampleIssueC] = l₁ ++ canonical :: l₂ ∧
        ∀ y ∈ l₁, canonical.fields.created < y.fields.created) ∧
      LogEvent.duplicates canonical.key dupKeys
        ∈ (handlePostWebhook sampleConfig .post (some sampleRelease) trThree).logs ∧
      (canonical.key :: dupKeys).Perm
        (([sampleIssueA, sampleIssueB, sampleIssueC] : List Issue).map Issue.key) ∧
      (∀ y ∈ [sampleIssueA, sampleIssueB, sampleIssueC],
        y.key ≠ canonical.key → y.key ∈ dupKeys) ∧
      (∀ c ∈ (handlePostWebhook sampleConfig .post (some sampleRelease) trThree).calls,
        c.isMutation = true → c = Call.update canonical.id payload)) :=
  ⟨⟨rfl, by decide⟩,
    duplicates_reported_untouched sampleConfig sampleRelease trThree
      [sampleIssueA, sampleIssueB, sampleIssueC] rfl (by decide)⟩

/-- C4: for every release event with non-empty project and version, the
rendered issue summary — both the standalone summary and the summary field
of the rendered issue content — is the string
"Update {project} to version {version}". -/
theorem summary_format (config : Config) (release : Release)
    (hp : release.project ≠ "") (hv : release.version ≠ "") :
    release.IssueSummary
      = "Update " ++ release.project ++ " to version " ++ release.version ∧
    (release.JiraIssue config).fields.summary
      = "Update " ++ release.project ++ " to version " ++ release.version :=
  ⟨rfl, rfl⟩

/-- C4 witness: the sample event renders the expected summary. -/
theorem summary_format_witness :
    (sampleRelease.project ≠ "" ∧ sampleRelease.version ≠ "") ∧
    (sampleRelease.IssueSummary
        = "Update " ++ sampleRelease.project ++ " to version " ++ sampleRelease.version ∧
      (sampleRelease.JiraIssue sampleConfig).fields.summary
        = "Update " ++ sampleRelease.project ++ " to version " ++ sampleRelease.version) :=
  ⟨⟨by decide, by decide⟩,
    summary_format sampleConfig sampleRelease (by decide) (by decide)⟩

/-- C5: every update call issued by the handler carries a payload that sets
only the summary field (a single set-operation on summary, holding the
rendered summary); no other field appears in the update request. -/
theorem update_sets_only_summary (config : Config) (release : Release)
    (tracker : TrackerResults) (issueID : String) (payload : UpdatesMap)
    (hmem : Call.update issueID payload
      ∈ (handlePostWebhook config .post (some release) tracker).calls) :
    payload = { update := { summary := [{ set := release.IssueSummary }] } } := by
  unfold handlePostWebhook at hmem
  cases hts : tracker.searchResult with
  | error e =>
    rw [hts] at hmem
    simp at hmem
  | ok issues =>
    rw [hts] at hmem
    cases issues with
    | nil =>
      cases htc : tracker.createResult <;> rw [htc] at hmem <;> simp at hmem
    | cons first rest =>
      cases htu : tracker.updateResult <;> rw [htu] at hmem <;>
        simp at hmem <;> exact hmem.2

/-- C5 witness: the concrete update call of the three-issue scenario
carries exactly the summary-setting payload. -/
theorem update_sets_only_summary_witness :
    (Call.update "2" ⟨⟨[⟨"Update widget to version 2.0.0"⟩]⟩⟩
        ∈ (handlePostWebhook sampleConfig .post (some sampleRelease) trThree).calls) ∧
    (⟨⟨[⟨"Update widget to version 2.0.0"⟩]⟩⟩ : UpdatesMap)
      = { update := { summary := [{ set := sampleRelease.IssueSummary }] } } :=
  ⟨by decide,
    update_sets_only_summary sampleConfig sampleRelease trThree "2"
      ⟨⟨[⟨"Update widget to version 2.0.0"⟩]⟩⟩ (by decide)⟩

/-- C6: when the tracker query step fails, the handler responds 500 and
issues no create and no update call — the only call made is the search
itself, with no fallback to blind creation. -/
theorem query_error_aborts (config : Config) (release : Release)
    (tracker : TrackerResults) (hq : tracker.searchResult = .error ()) :
    (handlePostWebhook config .post (some release) tracker).status = 500 ∧
    (handlePostWebhook config .post (some release) tracker).calls.filter
      Call.isMutation = [] := by
  unfold handlePostWebhook
  rw [hq]
  simp [List.filter, Call.isMutation]

/-- C6 witness: concrete failing query. -/
theorem query_error_aborts_witness :
    (trQueryErr.searchResult = .error ()) ∧
    ((handlePostWebhook sampleConfig .post (some sampleRelease) trQueryErr).status = 500 ∧
      (handlePostWebhook sampleConfig .post (some sampleRelease) trQueryErr).calls.filter
        Call.isMutation = []) :=
  ⟨rfl, query_error_aborts sampleConfig sampleRelease trQueryErr rfl⟩

/-- C7: at the failing input (empty query result, create call fails) the
handler does write the 500 response, but the error is not terminal: the
`if err != nil` block at src/main.go lines 113-122 has no `return`, so
execution falls through to the success log `Created issue %v`, which
dereferences the nil created-issue pointer and panics. -/
theorem create_error_falls_through :
    (handlePostWebhook sampleConfig .post (some sampleRelease) trCreateErr).status = 500 ∧
    (handlePostWebhook sampleConfig .post (some sampleRelease) trCreateErr).panicked = true := by
  decide

/-- C8 counterexample: the description of a created issue ignores both the
release event and the configuration — two different events under two
different configurations yield the same description, the fixed string
hardcoded at src/main.go line 54; it is therefore not produced by
evaluating a configured description template against the event (the
configuration has no description-template field). -/
theorem description_ignores_event :
    (Release.JiraIssue sampleConfig sampleRelease).fields.description
      = (Release.JiraIssue { sampleConfig with project := "OTHER" }
          emptyRelease).fields.description ∧
    (Release.JiraIssue sampleConfig sampleRelease).fields.description
      = "Update issue generated by https://github.2rioffice.com/platform/jelease using newreleases.io." :=
  ⟨rfl, rfl⟩

/-- C8 amended: for every configuration and every release event, the
description of the created issue equals the fixed string hardcoded at
src/main.go line 54. -/
theorem description_is_fixed_string (config : Config) (release : Release) :
    (release.JiraIssue config).fields.description
      = "Update issue generated by https://github.2rioffice.com/platform/jelease using newreleases.io." :=
  rfl

/-- C9 counterexample: no configuration suppresses tracker mutations — for
the sample request with a successful empty query and successful create,
every configuration leads to a create call reaching the tracker client, so
no dry-run setting exists (the Config structure at src/main.go lines 27-35
has no dry-run field). -/
theorem no_dry_run_config :
    ¬ ∃ config : Config,
      (handlePostWebhook config .post (some sampleRelease) trEmptyOk).calls.filter
        Call.isCreate = [] := by
  rintro ⟨config, hc⟩
  unfold handlePostWebhook at hc
  simp [trEmptyOk, List.filter, Call.isCreate] at hc

/-- C9 amended: the configuration offers no dry-run switch; for every
configuration, whenever the tracker query succeeds a mutating call (create
on an empty result, update otherwise) reaches the tracker client. -/
theorem mutation_always_reaches_tracker (config : Config) (release : Release)
    (tracker : TrackerResults) (issues : List Issue)
    (hq : tracker.searchResult = .ok issues) :
    (handlePostWebhook config .post (some release) tracker).calls.filter
      Call.isMutation ≠ [] := by
  unfold handlePostWebhook
  rw [hq]
  cases issues with
  | nil =>
    cases htc : tracker.createResult <;> simp [htc, List.filter, Call.isMutation]
  | cons first rest =>
    cases htu : tracker.updateResult <;> simp [htu, List.filter, Call.isMutation]

/-- C9 amended witness: with the sample configuration and an empty query
result, a mutation call reaches the tracker. -/
theorem mutation_always_reaches_tracker_witness :
    (trEmptyOk.searchResult = .ok []) ∧
    (handlePostWebhook sampleConfig .post (some sampleRelease) trEmptyOk).calls.filter
      Call.isMutation ≠ [] :=
  ⟨rfl, mutation_always_reaches_tracker sampleConfig sampleRelease trEmptyOk [] rfl⟩

/-- C10: on a POST request, the handler responds 400 exactly when JSON
decoding of the body fails; whenever the body decodes to a release event —
even one with empty project and version — no field validation intervenes
and the engine is invoked: the tracker search call is issued. -/
theorem decode_gate_no_field_validation (config : Config)
    (body : Option Release) (tracker : TrackerResults) :
    ((handlePostWebhook config .post body tracker).status = 400 ↔ body = none) ∧
    (∀ release, body = some release →
      Call.search config.defaultStatus release.project
        ∈ (handlePostWebhook config .post body tracker).calls) := by
  cases body with
  | none =>
    unfold handlePostWebhook
    simp
  | some release =>
    constructor
    · constructor
      · intro h400
        exfalso
        unfold handlePostWebhook at h400
        cases hts : tracker.searchResult with
        | error e =>
          rw [hts] at h400
          simp at h400
        | ok issues =>
          rw [hts] at h400
          cases issues with
          | nil =>
            cases htc : tracker.createResult <;> rw [htc] at h400 <;> simp at h400
          | cons first rest =>
            cases htu : tracker.updateResult <;> rw [htu] at h400 <;> simp at h400
      · intro h
        cases h
    · intro release2 hr
      injection hr with hre
      subst hre
      unfold handlePostWebhook
      cases hts : tracker.searchResult with
      | error e =>
        simp
      | ok issues =>
        cases issues with
        | nil =>
          cases htc : tracker.createResult <;> simp [htc]
        | cons first rest =>
          cases htu : tracker.updateResult <;> simp [htu]

/-- C10 witness: a decoded body with empty project and version still
reaches the engine, and the 400 characterization holds at this input. -/
theorem decode_gate_no_field_validation_witness :
    ((handlePostWebhook sampleConfig .post (some emptyRelease) trEmptyOk).status = 400
        ↔ (some emptyRelease = none)) ∧
    (∀ release, some emptyRelease = some release →
      Call.search sampleConfig.defaultStatus release.project
        ∈ (handlePostWebhook sampleConfig .post (some emptyRelease) trEmptyOk).calls) :=
  decode_gate_no_field_validation sampleConfig (some emptyRelease) trEmptyOk

end Jelease
